import Mathlib

/-!
Shallow embedding of the trading/accounting core of the Bitpanda-Trading-Bot
repository (`src/api/app/routers/trading.py`, `src/api/app/routers/risk.py`,
models in `src/api/app/models/portfolio.py` and `src/api/app/models/trading.py`,
configuration defaults in `src/api/app/core/config.py`).

Python `Decimal` values are embedded as `ℚ` (the source performs exact decimal
arithmetic on the quantities involved; no rounding context is hit by the
operations modelled here).  Database rows for a single portfolio trading a
single asset are embedded as explicit state records; `datetime.utcnow()` is
passed in as an abstract tick `now : ℕ`; raised `HTTPException`s become
`Except.error` carrying the `detail` string.
-/

namespace BitpandaBot

/-- Row of the `positions` table (`src/api/app/models/portfolio.py`, class
`Position`): quantity, average buy price, nullable mark price, P&L
accumulators, status string (`"open"` / `"closed"`) and close timestamp. -/
structure Position where
  quantity : ℚ
  avg_buy_price : ℚ
  current_price : Option ℚ
  unrealized_pnl : ℚ
  realized_pnl : ℚ
  status : String
  closed_at : Option ℕ
deriving Repr, DecidableEq

/-- Row of the `portfolios` table (`src/api/app/models/portfolio.py`, class
`Portfolio`): the fields mutated by the trading router. -/
structure Portfolio where
  current_balance : ℚ
  total_profit_loss : ℚ
deriving Repr, DecidableEq

/-- Row of the `orders` table (`src/api/app/models/trading.py`, class `Order`).
`status` defaults to `"pending"`, `executed_quantity` and `fee_amount` to 0. -/
structure Order where
  order_type : String
  quantity : ℚ
  price : Option ℚ
  stop_price : Option ℚ
  status : String
  executed_quantity : ℚ
  executed_price : Option ℚ
  fee_amount : ℚ
  fee_currency : Option String
  executed_at : Option ℕ
  cancelled_at : Option ℕ
deriving Repr, DecidableEq

/-- The dict returned by `simulate_order_execution`
(`src/api/app/routers/trading.py:245`). -/
structure ExecutionResult where
  status : String
  executed_quantity : ℚ
  executed_price : ℚ
  fee_amount : ℚ
  fee_currency : String
  executed_at : ℕ
deriving Repr, DecidableEq

/-- The configuration fields of `src/api/app/core/config.py` consumed by the
trading router. -/
structure Settings where
  PAPER_TRADING_MODE : Bool
  MAX_DAILY_TRADES : ℕ
  MIN_TRADE_AMOUNT : ℚ
deriving Repr, DecidableEq

/-- Defaults from `src/api/app/core/config.py` lines 63-65:
`PAPER_TRADING_MODE = True`, `MAX_DAILY_TRADES = 50`,
`MIN_TRADE_AMOUNT = 10.0`. -/
def settings : Settings :=
  { PAPER_TRADING_MODE := true, MAX_DAILY_TRADES := 50, MIN_TRADE_AMOUNT := 10 }

/-- Ledger state touched by `update_position_from_order`: the position rows of
one (portfolio, asset) pair and the owning portfolio row. -/
structure TradeState where
  positions : List Position
  portfolio : Portfolio
deriving Repr, DecidableEq

/-- The `select(Position).filter(..., Position.status == "open")` +
`scalar_one_or_none()` lookup used throughout the router: the first position
row whose status is `"open"` (the schema keeps at most one per asset). -/
def findOpen : List Position → Option Position
  | [] => none
  | p :: rest => if p.status = "open" then some p else findOpen rest

/-- Buy branch update of an existing open position
(`src/api/app/routers/trading.py:288`-293): weighted-average cost recompute. -/
def buyUpdate (p : Position) (er : ExecutionResult) : Position :=
  let total_cost := p.quantity * p.avg_buy_price + er.executed_quantity * er.executed_price
  let total_quantity := p.quantity + er.executed_quantity
  { p with avg_buy_price := total_cost / total_quantity, quantity := total_quantity }

/-- Fresh position created by a buy fill when no open position exists
(`src/api/app/routers/trading.py:294`-304); `unrealized_pnl`/`realized_pnl`
take their column defaults 0, `closed_at` is NULL. -/
def newBuyPosition (er : ExecutionResult) : Position :=
  { quantity := er.executed_quantity, avg_buy_price := er.executed_price,
    current_price := some er.executed_price, unrealized_pnl := 0, realized_pnl := 0,
    status := "open", closed_at := none }

/-- Effect of the buy branch on the position rows: mutate the first open
position in place, or add a fresh row when none exists. -/
def applyBuyToPositions (ps : List Position) (er : ExecutionResult) : List Position :=
  match ps with
  | [] => [newBuyPosition er]
  | p :: rest =>
      if p.status = "open" then buyUpdate p er :: rest
      else p :: applyBuyToPositions rest er

/-- Sell branch in-place mutation of the open position
(`src/api/app/routers/trading.py:330`-341): accumulate realized P&L, decrement
quantity, close the row when the quantity reaches exactly 0. -/
def sellUpdate (p : Position) (er : ExecutionResult) (now : ℕ) : Position :=
  let sell_proceeds := er.executed_quantity * er.executed_price
  let cost_basis := er.executed_quantity * p.avg_buy_price
  let realized_pnl := sell_proceeds - cost_basis - er.fee_amount
  let p' := { p with quantity := p.quantity - er.executed_quantity,
                     realized_pnl := p.realized_pnl + realized_pnl }
  if p'.quantity = 0 then { p' with status := "closed", closed_at := some now } else p'

/-- Replace (mutate in place) the first open position row. -/
def replaceFirstOpen (ps : List Position) (p' : Position) : List Position :=
  match ps with
  | [] => []
  | p :: rest =>
      if p.status = "open" then p' :: rest else p :: replaceFirstOpen rest p'

/-- `update_position_from_order` (`src/api/app/routers/trading.py:273`-347).
Applies an execution result to the position rows and the portfolio row; the
sell branch raises `HTTPException("Insufficient position quantity for sell
order")` when no open position exists or its quantity is below the filled
quantity.  Order types other than `"buy"`/`"sell"` fall through with no
effect. -/
def update_position_from_order (order_type : String) (er : ExecutionResult)
    (now : ℕ) (st : TradeState) : Except String TradeState :=
  if order_type = "buy" then
    let positions := applyBuyToPositions st.positions er
    let total_cost := er.executed_quantity * er.executed_price + er.fee_amount
    .ok { positions := positions,
          portfolio := { st.portfolio with
                         current_balance := st.portfolio.current_balance - total_cost } }
  else if order_type = "sell" then
    match findOpen st.positions with
    | none => .error "Insufficient position quantity for sell order"
    | some position =>
        if position.quantity < er.executed_quantity then
          .error "Insufficient position quantity for sell order"
        else
          let sell_proceeds := er.executed_quantity * er.executed_price
          let realized_pnl := sell_proceeds - er.executed_quantity * position.avg_buy_price
                                - er.fee_amount
          .ok { positions := replaceFirstOpen st.positions (sellUpdate position er now),
                portfolio := { current_balance :=
                                 st.portfolio.current_balance + sell_proceeds - er.fee_amount,
                               total_profit_loss :=
                                 st.portfolio.total_profit_loss + realized_pnl } }
  else .ok st

/-- Transactional wrapper: on an `HTTPException` the session is rolled back and
the ledger keeps its prior committed state. -/
def runFill (order_type : String) (er : ExecutionResult) (now : ℕ)
    (st : TradeState) : TradeState :=
  match update_position_from_order order_type er now st with
  | .ok st' => st'
  | .error _ => st

/-- `simulate_order_execution` (`src/api/app/routers/trading.py:245`-271): in
paper-trading mode, immediate full fill at `order.price or 45000.00` with a
0.15% fee; otherwise HTTP 501 `"Live trading not yet implemented"`. -/
def simulate_order_execution (s : Settings) (order : Order) (now : ℕ) :
    Except String ExecutionResult :=
  if s.PAPER_TRADING_MODE then
    let execution_price := order.price.getD 45000
    let fee_rate : ℚ := 15 / 10000
    let fee_amount := order.quantity * execution_price * fee_rate
    .ok { status := "executed", executed_quantity := order.quantity,
          executed_price := execution_price, fee_amount := fee_amount,
          fee_currency := "EUR", executed_at := now }
  else
    .error "Live trading not yet implemented"

/-- Request body of `POST /trading/orders`
(`src/api/app/routers/trading.py:67`, class `OrderCreate`); pydantic enforces
`quantity > 0` and positivity of the optional prices. -/
structure OrderCreate where
  order_type : String
  quantity : ℚ
  price : Option ℚ
  stop_price : Option ℚ
deriving Repr, DecidableEq

/-- Request body of `POST /trading/quick-trade`
(`src/api/app/routers/trading.py:117`, class `QuickTradeRequest`); pydantic
enforces `side ∈ {buy, sell}` and positivity of the optional amounts. -/
structure QuickTradeRequest where
  side : String
  amount_eur : Option ℚ
  quantity : Option ℚ
deriving Repr, DecidableEq

/-- Request body of `PUT /trading/orders/{id}`
(`src/api/app/routers/trading.py:146`, class `OrderUpdate`). -/
structure OrderUpdate where
  price : Option ℚ
  stop_price : Option ℚ
  quantity : Option ℚ
deriving Repr, DecidableEq

/-- Response body of `POST /trading/quick-trade`
(`src/api/app/routers/trading.py:135`, class `TradeExecutionResponse`). -/
structure TradeExecutionResponse where
  status : String
  executed_quantity : ℚ
  executed_price : ℚ
  total_value : ℚ
  fee_amount : ℚ
  net_amount : ℚ
deriving Repr, DecidableEq

/-- Full database state for one user trading one asset out of one portfolio:
the order rows plus the ledger rows. -/
structure AppState where
  orders : List Order
  positions : List Position
  portfolio : Portfolio
deriving Repr, DecidableEq

/-- `validate_order_limits` (`src/api/app/routers/trading.py:206`-243).
`daily_trades` is the DB count of the portfolio's orders created today.  Note
that the balance comparison on line 239 is performed for every order,
whatever its side, although the comment above it reads "Check portfolio
balance for buy orders". -/
def validate_order_limits (s : Settings) (portfolio : Portfolio)
    (order_value : ℚ) (daily_trades : ℕ) : Except String Unit :=
  if order_value < s.MIN_TRADE_AMOUNT then
    .error "Order value below minimum trade amount"
  else if s.MAX_DAILY_TRADES ≤ daily_trades then
    .error "Daily trading limit reached"
  else if portfolio.current_balance < order_value then
    .error "Insufficient portfolio balance"
  else
    .ok ()

/-- `create_order` (`src/api/app/routers/trading.py:384`-443): validates,
persists one `pending` order row, and schedules `execute_order_async` as a
background task for market/buy/sell order types.  Returns the updated state
and, on success, the created row. -/
def create_order (s : Settings) (od : OrderCreate) (daily_trades : ℕ)
    (st : AppState) : AppState × Except String Order :=
  if (od.order_type = "limit" ∨ od.order_type = "stop_loss" ∨
      od.order_type = "take_profit") ∧ od.price = none then
    (st, .error "Price is required for limit and stop orders")
  else
    let estimated_price := od.price.getD 45000
    let order_value := od.quantity * estimated_price
    match validate_order_limits s st.portfolio order_value daily_trades with
    | .error e => (st, .error e)
    | .ok _ =>
        let db_order : Order :=
          { order_type := od.order_type, quantity := od.quantity, price := od.price,
            stop_price := od.stop_price, status := "pending", executed_quantity := 0,
            executed_price := none, fee_amount := 0, fee_currency := none,
            executed_at := none, cancelled_at := none }
        ({ st with orders := st.orders ++ [db_order] }, .ok db_order)

/-- `execute_order_async` (`src/api/app/routers/trading.py:765`-769): the
background task body is `pass` — it performs no state change at all. -/
def execute_order_async (order_id : ℕ) (st : AppState) : AppState := st

/-- Quantity derivation of `quick_trade`
(`src/api/app/routers/trading.py:461`-469): use the explicit quantity when
given (pydantic guarantees it positive, hence truthy), else derive it from
`amount_eur` at the mock current price 45000.00; `none` when neither is
supplied. -/
def quickTradeQuantity (tr : QuickTradeRequest) : Option ℚ :=
  match tr.quantity with
  | some q => some q
  | none => tr.amount_eur.map (fun a => a / 45000)

/-- `quick_trade` (`src/api/app/routers/trading.py:445`-523): derive the
quantity via `quickTradeQuantity`, persist a `pending` order (first commit),
execute it immediately through `simulate_order_execution`, write the
execution fields onto the order and apply the fill via
`update_position_from_order`, committing everything on success.  On an
exception after the first commit the session rolls back to the state holding
only the pending order row.  No call to `validate_order_limits` is made on
this path. -/
def quick_trade (s : Settings) (tr : QuickTradeRequest) (now : ℕ)
    (st : AppState) : AppState × Except String TradeExecutionResponse :=
  match quickTradeQuantity tr with
  | none => (st, .error "Either amount_eur or quantity must be provided")
  | some qty =>
      let db_order : Order :=
        { order_type := tr.side, quantity := qty, price := none, stop_price := none,
          status := "pending", executed_quantity := 0, executed_price := none,
          fee_amount := 0, fee_currency := none, executed_at := none,
          cancelled_at := none }
      let committed : AppState := { st with orders := st.orders ++ [db_order] }
      match simulate_order_execution s db_order now with
      | .error e => (committed, .error e)
      | .ok er =>
          let db_order' : Order :=
            { db_order with status := er.status,
                            executed_quantity := er.executed_quantity,
                            executed_price := some er.executed_price,
                            fee_amount := er.fee_amount,
                            fee_currency := some er.fee_currency,
                            executed_at := some er.executed_at }
          match update_position_from_order db_order'.order_type er now
                  ⟨st.positions, st.portfolio⟩ with
          | .error e => (committed, .error e)
          | .ok ts =>
              let total_value := er.executed_quantity * er.executed_price
              ({ orders := st.orders ++ [db_order'], positions := ts.positions,
                 portfolio := ts.portfolio },
               .ok { status := er.status, executed_quantity := er.executed_quantity,
                     executed_price := er.executed_price, total_value := total_value,
                     fee_amount := er.fee_amount,
                     net_amount := total_value - er.fee_amount })

/-- `update_order` (`src/api/app/routers/trading.py:608`-658): orders are
addressed by their index in the order list; only `pending` orders may be
edited, otherwise HTTP 400 `"Can only update pending orders"` with no
mutation. -/
def update_order (i : ℕ) (u : OrderUpdate) (st : AppState) :
    AppState × Except String Order :=
  match st.orders[i]? with
  | none => (st, .error "Order not found")
  | some o =>
      if o.status ≠ "pending" then
        (st, .error "Can only update pending orders")
      else
        let o' : Order :=
          { o with price := match u.price with | some v => some v | none => o.price,
                   stop_price := match u.stop_price with
                                 | some v => some v
                                 | none => o.stop_price,
                   quantity := match u.quantity with | some v => v | none => o.quantity }
        ({ st with orders := st.orders.set i o' }, .ok o')

/-- `cancel_order` (`src/api/app/routers/trading.py:660`-696): only `pending`
orders may be cancelled, otherwise HTTP 400 `"Can only cancel pending orders"`
with no mutation; cancellation sets status `"cancelled"` and `cancelled_at`. -/
def cancel_order (i : ℕ) (now : ℕ) (st : AppState) :
    AppState × Except String Unit :=
  match st.orders[i]? with
  | none => (st, .error "Order not found")
  | some o =>
      if o.status ≠ "pending" then
        (st, .error "Can only cancel pending orders")
      else
        let o' : Order := { o with status := "cancelled", cancelled_at := some now }
        ({ st with orders := st.orders.set i o' }, .ok ())

/-- One invocation of an exposed order operation of the trading router. -/
inductive TradeOp where
  | create (od : OrderCreate) (daily_trades : ℕ)
  | quick (tr : QuickTradeRequest) (now : ℕ)
  | update (i : ℕ) (u : OrderUpdate)
  | cancel (i : ℕ) (now : ℕ)
deriving Repr

/-- State reached after one exposed operation (whether it succeeded or raised). -/
def applyTradeOp (st : AppState) (op : TradeOp) : AppState :=
  match op with
  | .create od d => (create_order settings od d st).1
  | .quick tr now => (quick_trade settings tr now st).1
  | .update i u => (update_order i u st).1
  | .cancel i now => (cancel_order i now st).1

/-- State reached after a sequence of exposed operations. -/
def applyTradeOps (st : AppState) (ops : List TradeOp) : AppState :=
  ops.foldl applyTradeOp st

/-- The fields of the `RiskMetrics` response
(`src/api/app/routers/risk.py:47`) that `calculate_risk_metrics` derives from
ledger state or that `check_risk_limits` reads. -/
structure RiskMetrics where
  total_value : ℚ
  concentration_risk : ℚ
  current_drawdown : ℚ
  volatility_30d : ℚ
deriving Repr, DecidableEq

/-- Market value of a position row as computed throughout
`calculate_risk_metrics`: `quantity * (current_price or avg_buy_price)`. -/
def position_value (p : Position) : ℚ :=
  p.quantity * (p.current_price.getD p.avg_buy_price)

/-- The open-position rows of a portfolio, as selected by
`calculate_risk_metrics` (`src/api/app/routers/risk.py:203`-208). -/
def openPositions (positions : List Position) : List Position :=
  positions.filter (fun p => p.status = "open")

/-- `calculate_risk_metrics` (`src/api/app/routers/risk.py:199`-291), restricted
to the state-derived fields: empty portfolios get all-zero metrics; otherwise
`total_value = balance + Σ position values`, `concentration_risk = largest
position value / total_value * 100` (0 when `total_value ≤ 0`),
`current_drawdown = 0` and `volatility_30d = 0.15` are the source's mock
constants. -/
def calculate_risk_metrics (portfolio : Portfolio) (positions : List Position) :
    RiskMetrics :=
  let opens := openPositions positions
  if opens.isEmpty then
    { total_value := portfolio.current_balance, concentration_risk := 0,
      current_drawdown := 0, volatility_30d := 0 }
  else
    let position_values := opens.map position_value
    let total_value := portfolio.current_balance + position_values.sum
    let largest_position := position_values.max?.getD 0
    let concentration_risk :=
      if 0 < total_value then largest_position / total_value * 100 else 0
    { total_value := total_value, concentration_risk := concentration_risk,
      current_drawdown := 0, volatility_30d := 15 / 100 }

/-- One alert dict appended by `check_risk_limits`
(`src/api/app/routers/risk.py:300`); the formatted `message` string is not
modelled. -/
structure AlertDict where
  type : String
  severity : String
  current_value : ℚ
  threshold_value : ℚ
deriving Repr, DecidableEq

/-- `check_risk_limits` (`src/api/app/routers/risk.py:293`-328): concentration
alert above 25% (high above 40%), drawdown alert above 10% (critical above
20%), volatility alert above 30%. -/
def check_risk_limits (rm : RiskMetrics) : List AlertDict :=
  let alerts : List AlertDict := []
  let alerts :=
    if 25 < rm.concentration_risk then
      alerts ++ [{ type := "concentration",
                   severity := if 40 < rm.concentration_risk then "high" else "medium",
                   current_value := rm.concentration_risk, threshold_value := 25 }]
    else alerts
  let alerts :=
    if 10 < rm.current_drawdown then
      alerts ++ [{ type := "drawdown",
                   severity := if 20 < rm.current_drawdown then "critical" else "high",
                   current_value := rm.current_drawdown, threshold_value := 10 }]
    else alerts
  let alerts :=
    if 30 < rm.volatility_30d then
      alerts ++ [{ type := "volatility", severity := "medium",
                   current_value := rm.volatility_30d, threshold_value := 30 }]
    else alerts
  alerts

/-! ### Helper lemmas about the buy branch -/

theorem buyUpdate_status (p : Position) (er : ExecutionResult) :
    (buyUpdate p er).status = p.status := rfl

theorem applyBuy_of_findOpen_none (ps : List Position) (er : ExecutionResult)
    (h : findOpen ps = none) :
    applyBuyToPositions ps er = ps ++ [newBuyPosition er] := by
  induction ps with
  | nil => rfl
  | cons p rest ih =>
      by_cases hp : p.status = "open"
      · simp [findOpen, hp] at h
      · simp only [findOpen, hp, if_false] at h
        simp [applyBuyToPositions, hp, ih h]

theorem findOpen_applyBuy (ps : List Position) (er : ExecutionResult) (p : Position)
    (h : findOpen ps = some p) :
    findOpen (applyBuyToPositions ps er) = some (buyUpdate p er) := by
  induction ps with
  | nil => simp [findOpen] at h
  | cons q rest ih =>
      by_cases hq : q.status = "open"
      · simp only [findOpen, hq, if_true, Option.some.injEq] at h
        subst h
        simp [applyBuyToPositions, hq, findOpen, buyUpdate_status]
      · simp only [findOpen, hq, if_false] at h
        simp [applyBuyToPositions, hq, findOpen, ih h]

/-! ### Claim C1 -/

/-- C1: the claim states that applying a buy fill re-verifies that the
resulting balance is non-negative and rejects the fill when the balance is
insufficient.  The code has no such check: with a portfolio balance of 100, a
buy fill of 1 unit at price 45000 with fee 67.5 is applied successfully
(`Except.ok`, no rejection), the balance decreases by exactly
`filled_qty * filled_price + fee_amount` and ends at −44967.5 < 0. -/
theorem c1_buy_fill_applied_without_balance_reverification :
    update_position_from_order "buy"
        { status := "executed", executed_quantity := 1, executed_price := 45000,
          fee_amount := 135 / 2, fee_currency := "EUR", executed_at := 0 } 0
        { positions := [],
          portfolio := { current_balance := 100, total_profit_loss := 0 } }
      = .ok { positions := [⟨1, 45000, some 45000, 0, 0, "open", none⟩],
              portfolio := { current_balance := 100 - (1 * 45000 + 135 / 2),
                             total_profit_loss := 0 } }
    ∧ (100 - (1 * 45000 + 135 / 2) : ℚ) < 0 := by
  constructor
  · rfl
  · norm_num

/-! ### Claim C2 -/

/-- C2: a buy fill of quantity q' at price p' updates an existing open
position to `avg_buy_price = (q*a + q'*p')/(q + q')` and `quantity = q + q'`,
and creates a fresh open position with `quantity = q'`, `avg_buy_price = p'`
when no open position exists. -/
theorem c2_buy_fill_cost_basis (st : TradeState) (er : ExecutionResult) (now : ℕ) :
    (∀ p, findOpen st.positions = some p →
       ∃ st', update_position_from_order "buy" er now st = .ok st' ∧
         findOpen st'.positions = some (buyUpdate p er) ∧
         (buyUpdate p er).avg_buy_price =
           (p.quantity * p.avg_buy_price + er.executed_quantity * er.executed_price) /
             (p.quantity + er.executed_quantity) ∧
         (buyUpdate p er).quantity = p.quantity + er.executed_quantity)
  ∧ (findOpen st.positions = none →
       ∃ st', update_position_from_order "buy" er now st = .ok st' ∧
         st'.positions = st.positions ++ [newBuyPosition er] ∧
         (newBuyPosition er).quantity = er.executed_quantity ∧
         (newBuyPosition er).avg_buy_price = er.executed_price ∧
         (newBuyPosition er).status = "open") := by
  constructor
  · intro p hp
    refine ⟨_, rfl, ?_, rfl, rfl⟩
    exact findOpen_applyBuy st.positions er p hp
  · intro hn
    refine ⟨_, rfl, ?_, rfl, rfl, rfl⟩
    exact applyBuy_of_findOpen_none st.positions er hn

/-- Witness for C2: both cases at concrete inputs.  Existing position 0.1 BTC
at avg 45000, buy 0.1 at 46000 → avg (0.1·45000 + 0.1·46000)/0.2 = 45500,
quantity 0.2; empty ledger, buy 0.1 at 45000 → new open position. -/
theorem c2_buy_fill_cost_basis_witness :
    (∃ st', update_position_from_order "buy" ⟨"executed", 1/10, 46000, 69/10, "EUR", 0⟩ 0
        ⟨[⟨1/10, 45000, some 45000, 0, 0, "open", none⟩], ⟨10000, 0⟩⟩ = .ok st' ∧
       findOpen st'.positions =
         some (buyUpdate ⟨1/10, 45000, some 45000, 0, 0, "open", none⟩
                 ⟨"executed", 1/10, 46000, 69/10, "EUR", 0⟩))
  ∧ (∃ st', update_position_from_order "buy" ⟨"executed", 1/10, 45000, 27/4, "EUR", 0⟩ 0
        ⟨[], ⟨10000, 0⟩⟩ = .ok st' ∧
       st'.positions = [] ++ [newBuyPosition ⟨"executed", 1/10, 45000, 27/4, "EUR", 0⟩]) := by
  constructor
  · obtain ⟨st', h1, h2, -, -⟩ :=
      (c2_buy_fill_cost_basis ⟨[⟨1/10, 45000, some 45000, 0, 0, "open", none⟩], ⟨10000, 0⟩⟩
        ⟨"executed", 1/10, 46000, 69/10, "EUR", 0⟩ 0).1
        ⟨1/10, 45000, some 45000, 0, 0, "open", none⟩ rfl
    exact ⟨st', h1, h2⟩
  · obtain ⟨st', h1, h2, -, -, -⟩ :=
      (c2_buy_fill_cost_basis ⟨[], ⟨10000, 0⟩⟩
        ⟨"executed", 1/10, 45000, 27/4, "EUR", 0⟩ 0).2 rfl
    exact ⟨st', h1, h2⟩

/-! ### Claim C3 -/

/-- Evaluation of the sell branch of `update_position_from_order` when an
open position with enough quantity exists. -/
theorem update_sell_ok (st : TradeState) (er : ExecutionResult) (now : ℕ)
    (p : Position) (hfind : findOpen st.positions = some p)
    (hnot : ¬ p.quantity < er.executed_quantity) :
    update_position_from_order "sell" er now st =
      .ok ⟨replaceFirstOpen st.positions (sellUpdate p er now),
           ⟨st.portfolio.current_balance +
              er.executed_quantity * er.executed_price - er.fee_amount,
            st.portfolio.total_profit_loss +
              (er.executed_quantity * er.executed_price -
                er.executed_quantity * p.avg_buy_price - er.fee_amount)⟩⟩ := by
  unfold update_position_from_order
  rw [if_neg (by decide : ¬ ("sell" : String) = "buy"),
      if_pos (rfl : ("sell" : String) = "sell"), hfind]
  dsimp only
  rw [if_neg hnot]

/-- Evaluation of the sell branch of `update_position_from_order` when no
open position exists or the open position's quantity is below the filled
quantity. -/
theorem update_sell_insufficient (st : TradeState) (er : ExecutionResult)
    (now : ℕ)
    (h : findOpen st.positions = none ∨
         ∃ p, findOpen st.positions = some p ∧ p.quantity < er.executed_quantity) :
    update_position_from_order "sell" er now st =
      .error "Insufficient position quantity for sell order" := by
  unfold update_position_from_order
  rw [if_neg (by decide : ¬ ("sell" : String) = "buy"),
      if_pos (rfl : ("sell" : String) = "sell")]
  rcases h with hnone | ⟨p, hp, hlt⟩
  · rw [hnone]
  · rw [hp]
    dsimp only
    rw [if_pos hlt]

/-- C3 counterexample: the claim's concrete instance is false on the code.
Selling 0.1 BTC at 46000 with the 0.15% fee the execution engine computes
(`0.1 * 46000 * 0.0015 = 6.9`) against average buy price 45000 realizes
`0.1 * (46000 − 45000) − 6.9 = 93.1`, not 31 (the spec's example took 0.15%
of 46000 instead of the fill notional 4600); the balance becomes 10086.35,
not 10024.25. -/
theorem c3_sell_example_realizes_93_1_not_31 :
    simulate_order_execution settings
        { order_type := "sell", quantity := 1/10, price := some 46000,
          stop_price := none, status := "pending", executed_quantity := 0,
          executed_price := none, fee_amount := 0, fee_currency := none,
          executed_at := none, cancelled_at := none } 0
      = .ok { status := "executed", executed_quantity := 1/10,
              executed_price := 46000, fee_amount := 1/10 * 46000 * (15/10000),
              fee_currency := "EUR", executed_at := 0 }
    ∧ (1/10 * 46000 * (15/10000) : ℚ) = 69/10
    ∧ update_position_from_order "sell"
          ⟨"executed", 1/10, 46000, 69/10, "EUR", 0⟩ 0
          ⟨[⟨1/10, 45000, some 45000, 0, 0, "open", none⟩], ⟨549325/100, 0⟩⟩
        = .ok ⟨[⟨0, 45000, some 45000, 0, 931/10, "closed", some 0⟩],
               ⟨1008635/100, 931/10⟩⟩
    ∧ (931/10 : ℚ) ≠ 31 := by
  refine ⟨rfl, by norm_num, ?_, by norm_num⟩
  rw [update_sell_ok
        ⟨[⟨1/10, 45000, some 45000, 0, 0, "open", none⟩], ⟨549325/100, 0⟩⟩
        ⟨"executed", 1/10, 46000, 69/10, "EUR", 0⟩ 0
        ⟨1/10, 45000, some 45000, 0, 0, "open", none⟩ rfl (by norm_num)]
  unfold replaceFirstOpen sellUpdate
  norm_num

/-- C3 (amended): for a sell fill of quantity q' at price p' with fee f
against an open position with average buy price a and quantity ≥ q', the
realized P&L increment accumulated into `position.realized_pnl` equals
`q'*(p' − a) − f`, the position quantity decreases by q' (closing with
`closed_at` set when it reaches exactly 0), the balance increases by
`q'*p' − f` and `total_profit_loss` increases by the realized increment.  The
concrete instance: selling 0.1 BTC at 46000 with the 0.15% fee (6.9) against
average 45000 realizes exactly 93.1. -/
theorem c3_sell_fill_effects (st : TradeState) (er : ExecutionResult) (now : ℕ)
    (p : Position) (hfind : findOpen st.positions = some p)
    (hq : er.executed_quantity ≤ p.quantity) :
    ∃ st', update_position_from_order "sell" er now st = .ok st' ∧
      st'.positions = replaceFirstOpen st.positions (sellUpdate p er now) ∧
      st'.portfolio.current_balance =
        st.portfolio.current_balance +
          (er.executed_quantity * er.executed_price - er.fee_amount) ∧
      st'.portfolio.total_profit_loss =
        st.portfolio.total_profit_loss +
          (er.executed_quantity * (er.executed_price - p.avg_buy_price) - er.fee_amount) ∧
      (sellUpdate p er now).realized_pnl =
        p.realized_pnl +
          (er.executed_quantity * (er.executed_price - p.avg_buy_price) - er.fee_amount) ∧
      (sellUpdate p er now).quantity = p.quantity - er.executed_quantity ∧
      (p.quantity = er.executed_quantity →
        (sellUpdate p er now).status = "closed" ∧
        (sellUpdate p er now).closed_at = some now) := by
  have hnot : ¬ p.quantity < er.executed_quantity := not_lt.mpr hq
  refine ⟨_, update_sell_ok st er now p hfind hnot, rfl, ?_, ?_, ?_, ?_, ?_⟩
  · show st.portfolio.current_balance + er.executed_quantity * er.executed_price
        - er.fee_amount = _
    ring
  · show st.portfolio.total_profit_loss +
        (er.executed_quantity * er.executed_price
          - er.executed_quantity * p.avg_buy_price - er.fee_amount) = _
    ring
  · unfold sellUpdate
    dsimp only
    split
    · show p.realized_pnl + (er.executed_quantity * er.executed_price
          - er.executed_quantity * p.avg_buy_price - er.fee_amount) = _
      ring
    · show p.realized_pnl + (er.executed_quantity * er.executed_price
          - er.executed_quantity * p.avg_buy_price - er.fee_amount) = _
      ring
  · unfold sellUpdate
    dsimp only
    split
    · rfl
    · rfl
  · intro hfull
    have hz : p.quantity - er.executed_quantity = 0 := by
      rw [hfull, sub_self]
    unfold sellUpdate
    dsimp only
    rw [if_pos hz]
    exact ⟨rfl, rfl⟩

/-- Witness for C3: the amended concrete scenario — position 0.1 BTC at avg
45000 with portfolio balance 5493.25, sell fill 0.1 at 46000 with fee 6.9. -/
theorem c3_sell_fill_effects_witness :
    ∃ st', update_position_from_order "sell"
        ⟨"executed", 1/10, 46000, 69/10, "EUR", 0⟩ 0
        ⟨[⟨1/10, 45000, some 45000, 0, 0, "open", none⟩], ⟨549325/100, 0⟩⟩ = .ok st' ∧
      st'.portfolio.total_profit_loss =
        0 + ((1/10 : ℚ) * (46000 - 45000) - 69/10) := by
  obtain ⟨st', h1, -, -, h4, -, -, -⟩ :=
    c3_sell_fill_effects
      ⟨[⟨1/10, 45000, some 45000, 0, 0, "open", none⟩], ⟨549325/100, 0⟩⟩
      ⟨"executed", 1/10, 46000, 69/10, "EUR", 0⟩ 0
      ⟨1/10, 45000, some 45000, 0, 0, "open", none⟩ rfl le_rfl
  exact ⟨st', h1, h4⟩

/-! ### Claim C4 -/

/-- C4: a sell fill whose filled quantity exceeds the open position's
quantity, or for which no open position exists, fails with the
insufficient-position error and is all-or-nothing: the committed ledger state
(positions and portfolio alike) is left unchanged. -/
theorem c4_sell_insufficient_position_rejected (st : TradeState)
    (er : ExecutionResult) (now : ℕ)
    (h : findOpen st.positions = none ∨
         ∃ p, findOpen st.positions = some p ∧ p.quantity < er.executed_quantity) :
    update_position_from_order "sell" er now st =
      .error "Insufficient position quantity for sell order" ∧
    runFill "sell" er now st = st := by
  have herr := update_sell_insufficient st er now h
  refine ⟨herr, ?_⟩
  unfold runFill
  rw [herr]

/-- Witness for C4: spec scenario 5 — selling 0.2 BTC against an open
position of 0.1 BTC is rejected and the ledger state is unchanged. -/
theorem c4_sell_insufficient_position_rejected_witness :
    update_position_from_order "sell" ⟨"executed", 2/10, 46000, 69/5, "EUR", 0⟩ 0
        ⟨[⟨1/10, 45000, some 45000, 0, 0, "open", none⟩], ⟨10000, 0⟩⟩ =
      .error "Insufficient position quantity for sell order" ∧
    runFill "sell" ⟨"executed", 2/10, 46000, 69/5, "EUR", 0⟩ 0
        ⟨[⟨1/10, 45000, some 45000, 0, 0, "open", none⟩], ⟨10000, 0⟩⟩ =
      ⟨[⟨1/10, 45000, some 45000, 0, 0, "open", none⟩], ⟨10000, 0⟩⟩ :=
  c4_sell_insufficient_position_rejected
    ⟨[⟨1/10, 45000, some 45000, 0, 0, "open", none⟩], ⟨10000, 0⟩⟩
    ⟨"executed", 2/10, 46000, 69/5, "EUR", 0⟩ 0
    (.inr ⟨⟨1/10, 45000, some 45000, 0, 0, "open", none⟩, rfl, by norm_num⟩)

/-! ### Claim C5 -/

/-- C5: the claim states that applying the same fill result twice leaves
balance and position quantity unchanged relative to the first application,
the application being guarded by the order's status transition.  No such
guard exists: `update_position_from_order` never consults the order's status,
and re-applying the identical buy fill (1 unit at 45000, fee 67.5, starting
balance 100000) debits the balance a second time (54932.5 → 9865) and doubles
the position quantity (1 → 2). -/
theorem c5_fill_application_not_idempotent :
    ∃ st1 st2,
      update_position_from_order "buy" ⟨"executed", 1, 45000, 135/2, "EUR", 0⟩ 0
          ⟨[], ⟨100000, 0⟩⟩ = .ok st1 ∧
      update_position_from_order "buy" ⟨"executed", 1, 45000, 135/2, "EUR", 0⟩ 0
          st1 = .ok st2 ∧
      st1.portfolio.current_balance = 109865/2 ∧
      st2.portfolio.current_balance = 9865 ∧
      st2.portfolio.current_balance ≠ st1.portfolio.current_balance ∧
      (findOpen st1.positions).map Position.quantity = some 1 ∧
      (findOpen st2.positions).map Position.quantity = some 2 := by
  refine ⟨_, _, rfl, rfl, by norm_num, by norm_num, by norm_num, rfl, ?_⟩
  show some ((1 : ℚ) + 1) = some 2
  norm_num

/-! ### Claim C6 -/

/-- C6 counterexample: the claim says every quick-trade request with a
positive quantity is executed immediately; a sell of quantity 1 against a
ledger holding no open position is not — the fill application fails with the
insufficient-position error and the committed state holds the order still in
`pending` status, not `executed`. -/
theorem c6_sell_without_position_not_executed :
    quick_trade settings ⟨"sell", none, some 1⟩ 0 ⟨[], [], ⟨10000, 0⟩⟩ =
      (⟨[⟨"sell", 1, none, none, "pending", 0, none, 0, none, none, none⟩],
        [], ⟨10000, 0⟩⟩,
       .error "Insufficient position quantity for sell order") ∧
    ("pending" : String) ≠ "executed" := by
  constructor
  · rfl
  · decide

/-- C6 (amended): a quick-trade request with a positive quantity or
amount_eur creates the order and attempts execution immediately with none of
the order-creation validations applied — the theorem holds for every starting
state, with no minimum-notional, daily-trade-limit, balance or required-price
hypothesis: buy fills always apply (in particular a buy whose total cost
exceeds the cash balance still executes, leaving the balance negative), and
sell fills apply exactly when an open position with sufficient quantity
exists; a sell without one fails at fill application with the
insufficient-position error and the persisted order remains pending. -/
theorem c6_quick_trade_skips_validations (st : AppState)
    (tr : QuickTradeRequest) (now : ℕ) (q : ℚ)
    (hqty : quickTradeQuantity tr = some q) (hq : 0 < q) :
    (tr.side = "buy" →
      ∃ o resp, quick_trade settings tr now st =
        ({ orders := st.orders ++ [o],
           positions := applyBuyToPositions st.positions
             ⟨"executed", q, 45000, q * 45000 * (15 / 10000), "EUR", now⟩,
           portfolio := { st.portfolio with current_balance :=
               st.portfolio.current_balance -
                 (q * 45000 + q * 45000 * (15 / 10000)) } },
         .ok resp) ∧
        o.status = "executed" ∧ resp.status = "executed" ∧
        resp.executed_quantity = q ∧ resp.executed_price = 45000) ∧
    (tr.side = "sell" →
      (∀ p, findOpen st.positions = some p → q ≤ p.quantity →
        ∃ o resp, quick_trade settings tr now st =
          ({ orders := st.orders ++ [o],
             positions := replaceFirstOpen st.positions
               (sellUpdate p
                 ⟨"executed", q, 45000, q * 45000 * (15 / 10000), "EUR", now⟩ now),
             portfolio :=
               ⟨st.portfolio.current_balance +
                  q * 45000 - q * 45000 * (15 / 10000),
                st.portfolio.total_profit_loss +
                  (q * 45000 - q * p.avg_buy_price -
                    q * 45000 * (15 / 10000))⟩ },
           .ok resp) ∧
          o.status = "executed" ∧ resp.status = "executed") ∧
      ((findOpen st.positions = none ∨
          ∃ p, findOpen st.positions = some p ∧ p.quantity < q) →
        ∃ o, quick_trade settings tr now st =
          ({ st with orders := st.orders ++ [o] },
           .error "Insufficient position quantity for sell order") ∧
          o.status = "pending" ∧ o.executed_quantity = 0)) := by
  constructor
  · intro hside
    refine ⟨⟨"buy", q, none, none, "executed", q, some 45000,
             q * 45000 * (15 / 10000), some "EUR", some now, none⟩,
            ⟨"executed", q, 45000, q * 45000, q * 45000 * (15 / 10000),
             q * 45000 - q * 45000 * (15 / 10000)⟩, ?_, rfl, rfl, rfl, rfl⟩
    unfold quick_trade
    rw [hqty, hside]
    rfl
  · intro hside
    constructor
    · intro p hfind hle
      have hupd := update_sell_ok ⟨st.positions, st.portfolio⟩
        ⟨"executed", q, 45000, q * 45000 * (15 / 10000), "EUR", now⟩ now p hfind
        (not_lt.mpr hle)
      refine ⟨⟨"sell", q, none, none, "executed", q, some 45000,
               q * 45000 * (15 / 10000), some "EUR", some now, none⟩,
              ⟨"executed", q, 45000, q * 45000, q * 45000 * (15 / 10000),
               q * 45000 - q * 45000 * (15 / 10000)⟩, ?_, rfl, rfl⟩
      unfold quick_trade
      rw [hqty, hside]
      dsimp only
      rw [show simulate_order_execution settings
            ⟨"sell", q, none, none, "pending", 0, none, 0, none, none, none⟩ now =
          .ok ⟨"executed", q, 45000, q * 45000 * (15 / 10000), "EUR", now⟩ from rfl]
      dsimp only
      rw [hupd]
    · intro h
      have herr : update_position_from_order "sell"
          ⟨"executed", q, 45000, q * 45000 * (15 / 10000), "EUR", now⟩ now
          ⟨st.positions, st.portfolio⟩ =
          .error "Insufficient position quantity for sell order" :=
        update_sell_insufficient ⟨st.positions, st.portfolio⟩
          ⟨"executed", q, 45000, q * 45000 * (15 / 10000), "EUR", now⟩ now h
      refine ⟨⟨"sell", q, none, none, "pending", 0, none, 0, none, none, none⟩,
              ?_, rfl, rfl⟩
      unfold quick_trade
      rw [hqty, hside]
      dsimp only
      rw [show simulate_order_execution settings
            ⟨"sell", q, none, none, "pending", 0, none, 0, none, none, none⟩ now =
          .ok ⟨"executed", q, 45000, q * 45000 * (15 / 10000), "EUR", now⟩ from rfl]
      dsimp only
      rw [herr]

/-- Witness for C6: (1) a buy specified by amount_eur 45000 against a cash
balance of 10 executes, leaving the balance negative; (2) a sell of 0.1
against an open position of 0.1 executes; (3) a sell of 0.2 against an open
position of 0.1 leaves the order pending with the insufficient-position
error. -/
theorem c6_quick_trade_skips_validations_witness :
    (∃ o resp, quick_trade settings ⟨"buy", some 45000, none⟩ 0 ⟨[], [], ⟨10, 0⟩⟩ =
      ({ orders := [] ++ [o],
         positions := applyBuyToPositions []
           ⟨"executed", 45000/45000, 45000,
            45000/45000 * 45000 * (15 / 10000), "EUR", 0⟩,
         portfolio := ⟨10 - (45000/45000 * 45000 +
                        45000/45000 * 45000 * (15 / 10000)), 0⟩ },
       .ok resp) ∧
      o.status = "executed" ∧ resp.status = "executed") ∧
    ((10 : ℚ) - (45000/45000 * 45000 + 45000/45000 * 45000 * (15 / 10000)) < 0) ∧
    (∃ o resp, quick_trade settings ⟨"sell", none, some (1/10)⟩ 0
        ⟨[], [⟨1/10, 45000, some 45000, 0, 0, "open", none⟩], ⟨10000, 0⟩⟩ =
      ({ orders := [] ++ [o],
         positions := replaceFirstOpen
           [⟨1/10, 45000, some 45000, 0, 0, "open", none⟩]
           (sellUpdate ⟨1/10, 45000, some 45000, 0, 0, "open", none⟩
             ⟨"executed", 1/10, 45000, 1/10 * 45000 * (15 / 10000), "EUR", 0⟩ 0),
         portfolio := ⟨10000 + 1/10 * 45000 - 1/10 * 45000 * (15 / 10000),
                       0 + (1/10 * 45000 - 1/10 * 45000 -
                         1/10 * 45000 * (15 / 10000))⟩ },
       .ok resp) ∧
      o.status = "executed" ∧ resp.status = "executed") ∧
    (∃ o, quick_trade settings ⟨"sell", none, some (2/10)⟩ 0
        ⟨[], [⟨1/10, 45000, some 45000, 0, 0, "open", none⟩], ⟨10000, 0⟩⟩ =
      (⟨[] ++ [o], [⟨1/10, 45000, some 45000, 0, 0, "open", none⟩], ⟨10000, 0⟩⟩,
       .error "Insufficient position quantity for sell order") ∧
      o.status = "pending") := by
  refine ⟨?_, by norm_num, ?_, ?_⟩
  · obtain ⟨o, resp, h1, h2, h3, -, -⟩ :=
      (c6_quick_trade_skips_validations ⟨[], [], ⟨10, 0⟩⟩
        ⟨"buy", some 45000, none⟩ 0 (45000/45000) rfl (by norm_num)).1 rfl
    exact ⟨o, resp, h1, h2, h3⟩
  · obtain ⟨o, resp, h1, h2, h3⟩ :=
      ((c6_quick_trade_skips_validations
        ⟨[], [⟨1/10, 45000, some 45000, 0, 0, "open", none⟩], ⟨10000, 0⟩⟩
        ⟨"sell", none, some (1/10)⟩ 0 (1/10) rfl (by norm_num)).2 rfl).1
        ⟨1/10, 45000, some 45000, 0, 0, "open", none⟩ rfl le_rfl
    exact ⟨o, resp, h1, h2, h3⟩
  · obtain ⟨o, h1, h2, -⟩ :=
      ((c6_quick_trade_skips_validations
        ⟨[], [⟨1/10, 45000, some 45000, 0, 0, "open", none⟩], ⟨10000, 0⟩⟩
        ⟨"sell", none, some (2/10)⟩ 0 (2/10) rfl (by norm_num)).2 rfl).2
        (.inr ⟨⟨1/10, 45000, some 45000, 0, 0, "open", none⟩, rfl, by norm_num⟩)
    exact ⟨o, h1, h2⟩

/-! ### Claim C7 -/

/-- C7: the claim states that only buy-side orders are subject to the balance
check.  The code applies the check to every order: a sell order with notional
50000 against a portfolio holding the asset but with cash balance 10000 is
rejected by `validate_order_limits` / `create_order` with
"Insufficient portfolio balance" and no order row is created. -/
theorem c7_balance_check_applied_to_sell_orders :
    validate_order_limits settings ⟨10000, 0⟩ 50000 0 =
      .error "Insufficient portfolio balance" ∧
    create_order settings ⟨"sell", 1, some 50000, none⟩ 0
        ⟨[], [⟨1, 40000, some 50000, 0, 0, "open", none⟩], ⟨10000, 0⟩⟩ =
      (⟨[], [⟨1, 40000, some 50000, 0, 0, "open", none⟩], ⟨10000, 0⟩⟩,
       .error "Insufficient portfolio balance") := by
  constructor
  · unfold validate_order_limits settings
    norm_num
  · unfold create_order validate_order_limits settings
    norm_num
    intro h1 h2
    exact Option.noConfusion h2

/-! ### Helper lemmas for order-status monotonicity -/

theorem create_order_orders_mono (s : Settings) (od : OrderCreate) (d : ℕ)
    (st : AppState) :
    (create_order s od d st).1.orders = st.orders ∨
    ∃ o, (create_order s od d st).1.orders = st.orders ++ [o] := by
  unfold create_order
  dsimp only
  split
  · exact .inl rfl
  · split
    · exact .inl rfl
    · exact .inr ⟨_, rfl⟩

theorem quick_trade_orders_mono (s : Settings) (tr : QuickTradeRequest)
    (now : ℕ) (st : AppState) :
    (quick_trade s tr now st).1.orders = st.orders ∨
    ∃ o, (quick_trade s tr now st).1.orders = st.orders ++ [o] := by
  unfold quick_trade
  dsimp only
  repeat' split
  all_goals first | exact .inl rfl | exact .inr ⟨_, rfl⟩

theorem update_order_preserves_nonpending (j : ℕ) (u : OrderUpdate)
    (st : AppState) (i : ℕ) (o : Order) (hget : st.orders[i]? = some o)
    (hnp : o.status ≠ "pending") :
    (update_order j u st).1.orders[i]? = some o := by
  unfold update_order
  cases hj : st.orders[j]? with
  | none => exact hget
  | some o' =>
      dsimp only
      by_cases hs : o'.status = "pending"
      · rw [if_neg (not_not_intro hs)]
        rcases eq_or_ne j i with rfl | hij
        · rw [hget] at hj
          cases hj
          exact absurd hs hnp
        · dsimp only
          rw [List.getElem?_set_ne hij]
          exact hget
      · rw [if_pos hs]
        exact hget

theorem cancel_order_preserves_nonpending (j : ℕ) (tcan : ℕ)
    (st : AppState) (i : ℕ) (o : Order) (hget : st.orders[i]? = some o)
    (hnp : o.status ≠ "pending") :
    (cancel_order j tcan st).1.orders[i]? = some o := by
  unfold cancel_order
  cases hj : st.orders[j]? with
  | none => exact hget
  | some o' =>
      dsimp only
      by_cases hs : o'.status = "pending"
      · rw [if_neg (not_not_intro hs)]
        rcases eq_or_ne j i with rfl | hij
        · rw [hget] at hj
          cases hj
          exact absurd hs hnp
        · dsimp only
          rw [List.getElem?_set_ne hij]
          exact hget
      · rw [if_pos hs]
        exact hget

theorem applyTradeOp_preserves_nonpending (op : TradeOp) (st : AppState)
    (i : ℕ) (o : Order) (hget : st.orders[i]? = some o)
    (hnp : o.status ≠ "pending") :
    (applyTradeOp st op).orders[i]? = some o := by
  have hlen : i < st.orders.length := by
    rcases List.getElem?_eq_some_iff.mp hget with ⟨hl, -⟩
    exact hl
  cases op with
  | create od d =>
      show (create_order settings od d st).1.orders[i]? = some o
      rcases create_order_orders_mono settings od d st with h | ⟨x, h⟩
      · rw [h]; exact hget
      · rw [h, List.getElem?_append_left hlen]; exact hget
  | quick tr now =>
      show (quick_trade settings tr now st).1.orders[i]? = some o
      rcases quick_trade_orders_mono settings tr now st with h | ⟨x, h⟩
      · rw [h]; exact hget
      · rw [h, List.getElem?_append_left hlen]; exact hget
  | update j u => exact update_order_preserves_nonpending j u st i o hget hnp
  | cancel j t => exact cancel_order_preserves_nonpending j t st i o hget hnp

theorem applyTradeOps_preserves_nonpending (ops : List TradeOp) (st : AppState)
    (i : ℕ) (o : Order) (hget : st.orders[i]? = some o)
    (hnp : o.status ≠ "pending") :
    (applyTradeOps st ops).orders[i]? = some o := by
  induction ops generalizing st with
  | nil => exact hget
  | cons op rest ih =>
      exact ih (applyTradeOp st op)
        (applyTradeOp_preserves_nonpending op st i o hget hnp)

/-! ### Claim C8 -/

/-- C8: no sequence of exposed order operations (create, quick-trade,
update, cancel) moves an order out of a terminal status (`executed`,
`cancelled`, `failed`): the order row is left entirely unchanged, so it is in
particular never `pending` again; and `update_order` / `cancel_order` fail
with the corresponding error on every order whose status is not `pending`,
leaving the whole state unchanged. -/
theorem c8_order_status_monotonic (ops : List TradeOp) (st : AppState)
    (i : ℕ) (o : Order) (hget : st.orders[i]? = some o)
    (hterm : o.status = "executed" ∨ o.status = "cancelled" ∨ o.status = "failed") :
    (applyTradeOps st ops).orders[i]? = some o ∧
    ¬ ((applyTradeOps st ops).orders[i]?.map Order.status = some "pending") ∧
    (∀ j o' u tcan, st.orders[j]? = some o' → o'.status ≠ "pending" →
       update_order j u st = (st, .error "Can only update pending orders") ∧
       cancel_order j tcan st = (st, .error "Can only cancel pending orders")) := by
  have hnp : o.status ≠ "pending" := by
    rcases hterm with h | h | h <;> rw [h] <;> decide
  have hpres := applyTradeOps_preserves_nonpending ops st i o hget hnp
  refine ⟨hpres, ?_, ?_⟩
  · rw [hpres]
    simp [hnp]
  · intro j o' u tcan hj hnp'
    constructor
    · unfold update_order
      rw [hj]
      dsimp only
      rw [if_pos hnp']
    · unfold cancel_order
      rw [hj]
      dsimp only
      rw [if_pos hnp']

/-- Witness for C8: an executed order survives a cancel attempt followed by
an edit attempt unchanged, and both operations fail on it directly. -/
theorem c8_order_status_monotonic_witness :
    (applyTradeOps
        ⟨[⟨"buy", 1, none, none, "executed", 1, some 45000, 0, none, some 0, none⟩],
         [], ⟨0, 0⟩⟩
        [.cancel 0 5, .update 0 ⟨some 1, none, none⟩]).orders[0]? =
      some ⟨"buy", 1, none, none, "executed", 1, some 45000, 0, none, some 0, none⟩ ∧
    ¬ ((applyTradeOps
        ⟨[⟨"buy", 1, none, none, "executed", 1, some 45000, 0, none, some 0, none⟩],
         [], ⟨0, 0⟩⟩
        [.cancel 0 5, .update 0 ⟨some 1, none, none⟩]).orders[0]?.map Order.status =
      some "pending") ∧
    (∀ j o' u tcan,
       (⟨[⟨"buy", 1, none, none, "executed", 1, some 45000, 0, none, some 0, none⟩],
         [], ⟨0, 0⟩⟩ : AppState).orders[j]? = some o' → o'.status ≠ "pending" →
       update_order j u
           ⟨[⟨"buy", 1, none, none, "executed", 1, some 45000, 0, none, some 0, none⟩],
            [], ⟨0, 0⟩⟩ =
         (⟨[⟨"buy", 1, none, none, "executed", 1, some 45000, 0, none, some 0, none⟩],
           [], ⟨0, 0⟩⟩, .error "Can only update pending orders") ∧
       cancel_order j tcan
           ⟨[⟨"buy", 1, none, none, "executed", 1, some 45000, 0, none, some 0, none⟩],
            [], ⟨0, 0⟩⟩ =
         (⟨[⟨"buy", 1, none, none, "executed", 1, some 45000, 0, none, some 0, none⟩],
           [], ⟨0, 0⟩⟩, .error "Can only cancel pending orders")) :=
  c8_order_status_monotonic [.cancel 0 5, .update 0 ⟨some 1, none, none⟩]
    ⟨[⟨"buy", 1, none, none, "executed", 1, some 45000, 0, none, some 0, none⟩],
     [], ⟨0, 0⟩⟩ 0
    ⟨"buy", 1, none, none, "executed", 1, some 45000, 0, none, some 0, none⟩
    rfl (.inl rfl)

/-! ### Claim C9 -/

/-- C9: for a portfolio with at least one open position (and positive total
value), concentration risk is the largest open position's market value
(quantity times current price, falling back to average buy price) divided by
total portfolio value (cash balance plus all open position values), in
percent; above 25 a concentration alert with threshold 25 is generated whose
severity is "high" when the value exceeds 40 and "medium" otherwise. -/
theorem c9_concentration_risk_alert (portfolio : Portfolio)
    (positions : List Position)
    (hne : openPositions positions ≠ [])
    (hpos : 0 < portfolio.current_balance +
              ((openPositions positions).map position_value).sum) :
    (calculate_risk_metrics portfolio positions).concentration_risk =
      ((openPositions positions).map position_value).max?.getD 0 /
        (portfolio.current_balance +
          ((openPositions positions).map position_value).sum) * 100 ∧
    (25 < (calculate_risk_metrics portfolio positions).concentration_risk →
      AlertDict.mk "concentration"
          (if 40 < (calculate_risk_metrics portfolio positions).concentration_risk
           then "high" else "medium")
          ((calculate_risk_metrics portfolio positions).concentration_risk) 25
        ∈ check_risk_limits (calculate_risk_metrics portfolio positions)) := by
  have hemp : ¬ ((openPositions positions).isEmpty = true) := by
    simpa [List.isEmpty_iff] using hne
  have hrm : calculate_risk_metrics portfolio positions =
      { total_value := portfolio.current_balance +
          ((openPositions positions).map position_value).sum,
        concentration_risk :=
          ((openPositions positions).map position_value).max?.getD 0 /
            (portfolio.current_balance +
              ((openPositions positions).map position_value).sum) * 100,
        current_drawdown := 0, volatility_30d := 15 / 100 } := by
    unfold calculate_risk_metrics
    dsimp only
    rw [if_neg hemp, if_pos hpos]
  refine ⟨by rw [hrm], ?_⟩
  intro h25
  rw [hrm] at h25 ⊢
  unfold check_risk_limits
  dsimp only
  rw [if_pos h25, if_neg (by norm_num : ¬ (10 : ℚ) < 0),
      if_neg (by norm_num : ¬ (30 : ℚ) < 15 / 100)]
  simp

/-- Witness for C9: balance 1000 and one open position of 1 unit marked at
45000 give concentration 45000/46000·100 ≈ 97.8 > 25, so the concentration
alert is generated. -/
theorem c9_concentration_risk_alert_witness :
    AlertDict.mk "concentration"
        (if 40 < (calculate_risk_metrics ⟨1000, 0⟩
                    [⟨1, 45000, some 45000, 0, 0, "open", none⟩]).concentration_risk
         then "high" else "medium")
        ((calculate_risk_metrics ⟨1000, 0⟩
            [⟨1, 45000, some 45000, 0, 0, "open", none⟩]).concentration_risk) 25
      ∈ check_risk_limits (calculate_risk_metrics ⟨1000, 0⟩
          [⟨1, 45000, some 45000, 0, 0, "open", none⟩]) := by
  have hpos : (0 : ℚ) < (1000 : ℚ) +
      ((openPositions [⟨1, 45000, some 45000, 0, 0, "open", none⟩]).map
        position_value).sum := by
    norm_num [openPositions, position_value]
  have h := c9_concentration_risk_alert ⟨1000, 0⟩
    [⟨1, 45000, some 45000, 0, 0, "open", none⟩] (by decide) hpos
  refine h.2 ?_
  rw [h.1]
  norm_num [openPositions, position_value]

/-! ### Claim C10 -/

/-- C10: orders created through `create_order` get no execution effects: the
scheduled background task `execute_order_async` performs no state change, so
after a successful `create_order` the new order is `pending` with
`executed_quantity = 0`, and the position rows and the portfolio row are
exactly as before. -/
theorem c10_create_order_leaves_ledger_unchanged (s : Settings)
    (od : OrderCreate) (d : ℕ) (st st' : AppState) (o : Order) (oid : ℕ)
    (h : create_order s od d st = (st', .ok o)) :
    o.status = "pending" ∧ o.executed_quantity = 0 ∧
    st'.orders = st.orders ++ [o] ∧
    st'.positions = st.positions ∧ st'.portfolio = st.portfolio ∧
    execute_order_async oid st' = st' := by
  unfold create_order at h
  dsimp only at h
  split at h
  · simp at h
  · split at h
    · simp at h
    · rw [Prod.mk.injEq, Except.ok.injEq] at h
      obtain ⟨hst, ho⟩ := h
      subst hst
      subst ho
      exact ⟨rfl, rfl, rfl, rfl, rfl, rfl⟩

/-- Witness for C10: creating a buy order of 1 unit at limit price 45000
against a portfolio with balance 50000 succeeds and leaves the ledger rows
untouched. -/
theorem c10_create_order_leaves_ledger_unchanged_witness :
    ((⟨"buy", 1, some 45000, none, "pending", 0, none, 0, none, none, none⟩ :
        Order).status = "pending") ∧
    ((⟨"buy", 1, some 45000, none, "pending", 0, none, 0, none, none, none⟩ :
        Order).executed_quantity = 0) ∧
    ((⟨[⟨"buy", 1, some 45000, none, "pending", 0, none, 0, none, none, none⟩],
       [], ⟨50000, 0⟩⟩ : AppState).orders =
      ([] : List Order) ++
        [⟨"buy", 1, some 45000, none, "pending", 0, none, 0, none, none, none⟩]) ∧
    ((⟨[⟨"buy", 1, some 45000, none, "pending", 0, none, 0, none, none, none⟩],
       [], ⟨50000, 0⟩⟩ : AppState).positions = ([] : List Position)) ∧
    ((⟨[⟨"buy", 1, some 45000, none, "pending", 0, none, 0, none, none, none⟩],
       [], ⟨50000, 0⟩⟩ : AppState).portfolio = (⟨50000, 0⟩ : Portfolio)) ∧
    execute_order_async 0
        ⟨[⟨"buy", 1, some 45000, none, "pending", 0, none, 0, none, none, none⟩],
         [], ⟨50000, 0⟩⟩ =
      ⟨[⟨"buy", 1, some 45000, none, "pending", 0, none, 0, none, none, none⟩],
       [], ⟨50000, 0⟩⟩ := by
  refine c10_create_order_leaves_ledger_unchanged settings ⟨"buy", 1, some 45000, none⟩
    0 ⟨[], [], ⟨50000, 0⟩⟩
    ⟨[⟨"buy", 1, some 45000, none, "pending", 0, none, 0, none, none, none⟩],
     [], ⟨50000, 0⟩⟩
    ⟨"buy", 1, some 45000, none, "pending", 0, none, 0, none, none, none⟩ 0 ?_
  unfold create_order validate_order_limits settings
  norm_num
  exact fun h1 h2 => Option.noConfusion h2

end BitpandaBot
